import Mathlib

/-!
Shallow embedding of the Portfolio Risk & Pricing Simulation Engine of the
brics-mvp repository (src/dashboard/app.py and src/engine/advanced_analytics.py),
together with theorems settling the frozen claims about it.

Conventions of the embedding:
- Python floats are modelled as rationals (`ℚ`); arithmetic the source performs
  is translated literally.
- Python's `random.uniform(a, b)` is modelled as `uniform a b u` where `u` is a
  unit draw supplied by an injected random stream, so `uniform a b u = a + (b-a)*u`.
- A division the source performs on a zero denominator (a float NaN, which the
  downstream `np.random.binomial` rejects with a ValueError) is modelled by an
  `Option` result: `none` stands for the failing computation.
- Python's `hash(company_id)` (randomised string hashing) is modelled as an
  injected function `h : String → ℕ`.
- The Streamlit session CDS data (`st.session_state.cds_data`) is modelled as an
  `Option ℚ` holding the `south_africa_cds` value when present.
-/

/-- One row of the mutable obligor table `company_df` built in
`run_all_simulations` (src/dashboard/app.py).  Presentation-only columns the
engine never reads or writes (`status`, `underwriting_bank`, `time_listed`)
are omitted. -/
structure Obligor where
  company : String
  industry : String
  credit_rating : String
  avg_pd : ℚ
  yield : ℚ
  total_exposure : ℚ
  terms_tenor : ℚ
  spread_bps : ℚ
  credit_type : String
  notional_24h_change : ℚ
  cds_fee_24h_change : ℚ
deriving DecidableEq

/-- One transaction dict produced by `simulate_live_transaction_data`
(src/dashboard/app.py); only the fields read by the engine are kept. -/
structure Tx where
  company_id : String
  amount : ℚ
  pd : ℚ
  tenor_days : ℚ
deriving DecidableEq

/-- The protocol-level scalar metrics table `protocol_df`
(src/dashboard/app.py), one field per `metric` key. -/
structure ProtocolMetrics where
  brics_price : ℚ
  cds_premiums_monthly : ℚ
  sovereign_yield_monthly : ℚ
  monthly_yield_total : ℚ
  apy_per_brics : ℚ
  weighted_pd : ℚ
  capital_efficiency : ℚ
  overcollateralization : ℚ
  zar_rate : ℚ
  total_notional : ℚ
  tokens_minted : ℚ
deriving DecidableEq

/-- `random.uniform(a, b)` for a unit draw `u` of the injected stream. -/
def uniform (a b u : ℚ) : ℚ := a + (b - a) * u

/-- Python `int(x)` (truncation toward zero) on a rational. -/
def pyInt (x : ℚ) : ℤ := if 0 ≤ x then ⌊x⌋ else -⌊-x⌋

/-- Exposure-weighted mean PD
`(company_df['avg_pd'] * company_df['total_exposure']).sum() / company_df['total_exposure'].sum()`,
computed verbatim at three sites of the source: `AdvancedRiskAnalytics.calculate_var`,
`AdvancedRiskAnalytics.generate_risk_report` and `simulate_normal_data`. -/
def weighted_pd (df : List Obligor) : ℚ :=
  (df.map (fun r => r.avg_pd * r.total_exposure)).sum /
    (df.map (fun r => r.total_exposure)).sum

/-- The seven company-specific risk multipliers returned by
`calculate_company_specific_risk` (src/dashboard/app.py). -/
structure RiskFactors where
  industry_risk : ℚ
  size_risk : ℚ
  geographic_risk : ℚ
  business_model_risk : ℚ
  financial_health_risk : ℚ
  management_risk : ℚ
  concentration_risk : ℚ
deriving DecidableEq

/-- The `industry_risk_factors` dict of `calculate_company_specific_risk`,
read with `.get(industry, 1.0)`. -/
def industry_risk_factors (industry : String) : ℚ :=
  match industry with
  | "mining" => 1.2
  | "manufacturing" => 1.1
  | "financial" => 0.9
  | "retail" => 1.0
  | "agriculture" => 1.3
  | "energy" => 1.4
  | "technology" => 1.1
  | "telecommunications" => 0.8
  | "beverages" => 0.9
  | "automotive" => 1.2
  | "construction" => 1.3
  | "healthcare" => 0.8
  | "education" => 0.9
  | "logistics" => 1.1
  | "real_estate" => 1.5
  | _ => 1.0

/-- Region keys of the `geographic_risk_factors` dict, in insertion order
(the source indexes `regions[hash(company_id) % len(regions)]`). -/
def regions : List String :=
  ["gauteng", "western_cape", "kwazulu_natal", "eastern_cape", "limpopo",
   "mpumalanga", "north_west", "free_state", "northern_cape"]

/-- The `geographic_risk_factors` dict; every key handed to it comes from
`regions`, so the catch-all branch is never reached on source inputs. -/
def geographic_risk_factors (region : String) : ℚ :=
  match region with
  | "gauteng" => 1.0
  | "western_cape" => 0.9
  | "kwazulu_natal" => 1.1
  | "eastern_cape" => 1.2
  | "limpopo" => 1.3
  | "mpumalanga" => 1.1
  | "north_west" => 1.2
  | "free_state" => 1.1
  | "northern_cape" => 1.2
  | _ => 1.0

/-- The `business_model_risk_factors` dict, read with `.get(credit_type, 1.0)`. -/
def business_model_risk_factors (credit_type : String) : ℚ :=
  match credit_type with
  | "Trade Receivables" => 1.0
  | "Supply Chain Finance" => 1.1
  | "Working Capital" => 1.2
  | "Equipment Finance" => 1.3
  | "Real Estate" => 1.4
  | "Invoice Discounting" => 0.9
  | _ => 1.0

/-- The `financial_health_factors` dict, read with `.get(credit_rating, 1.1)`. -/
def financial_health_factors (credit_rating : String) : ℚ :=
  match credit_rating with
  | "AAA" => 0.7
  | "AA+" => 0.75
  | "AA" => 0.8
  | "AA-" => 0.85
  | "A+" => 0.9
  | "A" => 0.95
  | "A-" => 1.0
  | "BBB+" => 1.05
  | "BBB" => 1.1
  | "BBB-" => 1.15
  | "BB+" => 1.3
  | "BB" => 1.4
  | "BB-" => 1.5
  | "B+" => 1.7
  | "B" => 1.9
  | "B-" => 2.1
  | _ => 1.1

/-- `calculate_company_specific_risk(company_id, company_data, transactions)`
(src/dashboard/app.py).  The company profile is the first obligor row matching
`company_id`; when no row matches, all factors default to 1.0.  `h` is the
injected model of Python's randomised `hash` on the company identifier. -/
def calculate_company_specific_risk (company_id : String)
    (company_data : List Obligor) (h : String → ℕ) : RiskFactors :=
  match company_data.find? (fun r => r.company = company_id) with
  | none =>
    { industry_risk := 1.0, size_risk := 1.0, geographic_risk := 1.0,
      business_model_risk := 1.0, financial_health_risk := 1.0,
      management_risk := 1.0, concentration_risk := 1.0 }
  | some company_profile =>
    let industry_risk := industry_risk_factors company_profile.industry
    let total_exposure := company_profile.total_exposure
    let size_risk : ℚ :=
      if total_exposure > 5000000 then 0.8
      else if total_exposure > 2000000 then 0.9
      else if total_exposure > 500000 then 1.0
      else 1.2
    let company_region := regions.getD (h company_id % regions.length) "gauteng"
    let geographic_risk := geographic_risk_factors company_region
    let business_model_risk := business_model_risk_factors company_profile.credit_type
    let financial_health_risk := financial_health_factors company_profile.credit_rating
    let avg_pd := company_profile.avg_pd
    let management_risk : ℚ :=
      if avg_pd < 0.04 then 0.8
      else if avg_pd < 0.06 then 0.9
      else if avg_pd < 0.08 then 1.0
      else if avg_pd < 0.10 then 1.1
      else 1.3
    let portfolio_total := (company_data.map (fun r => r.total_exposure)).sum
    let concentration_share : ℚ :=
      if portfolio_total > 0 then total_exposure / portfolio_total else 0
    let concentration_risk : ℚ :=
      if concentration_share > 0.15 then 1.4
      else if concentration_share > 0.10 then 1.2
      else if concentration_share > 0.05 then 1.1
      else 1.0
    { industry_risk := industry_risk, size_risk := size_risk,
      geographic_risk := geographic_risk, business_model_risk := business_model_risk,
      financial_health_risk := financial_health_risk,
      management_risk := management_risk, concentration_risk := concentration_risk }

/-- `calculate_company_pd_from_transactions(company_id, transactions, company_df)`
(src/dashboard/app.py).  `cds` models `st.session_state.cds_data` (the
`south_africa_cds` value when the session holds CDS data, else `none`, in which
case the market stress multiplier stays 1.0). -/
def calculate_company_pd_from_transactions (company_id : String)
    (transactions : List Tx) (company_df : List Obligor)
    (h : String → ℕ) (cds : Option ℚ) : ℚ :=
  let company_transactions := transactions.filter (fun t => t.company_id = company_id)
  if company_transactions.isEmpty then 0.06
  else
    let total_exposure := (company_transactions.map (fun t => t.amount)).sum
    let base_weighted_pd :=
      (company_transactions.map (fun t => t.pd * t.amount)).sum / total_exposure
    let rf := calculate_company_specific_risk company_id company_df h
    let total_risk_multiplier :=
      rf.industry_risk * rf.size_risk * rf.geographic_risk *
      rf.business_model_risk * rf.financial_health_risk *
      rf.management_risk * rf.concentration_risk
    let company_specific_pd := base_weighted_pd * total_risk_multiplier
    let market_stress_multiplier : ℚ :=
      match cds with
      | none => 1.0
      | some south_africa_cds => 1.0 + ((south_africa_cds - 180) / 180) * 0.2
    let final_pd := company_specific_pd * market_stress_multiplier
    min 0.25 (max 0.01 final_pd)

/-- First-occurrence grouping order of `company_transactions` in
`update_company_metrics_from_transactions`: Python dict keys appear in order of
each company's first transaction. -/
def ordered_company_ids (transactions : List Tx) : List String :=
  transactions.foldl
    (fun acc t => if t.company_id ∈ acc then acc else acc ++ [t.company_id]) []

/-- Replace the first row satisfying `p` (the source updates row
`company_df[company_df['company'] == company_id].index[0]`). -/
def replaceFirst (p : Obligor → Bool) (f : Obligor → Obligor) :
    List Obligor → List Obligor
  | [] => []
  | r :: rs => if p r then f r :: rs else r :: replaceFirst p f rs

/-- Per-company loop body of `update_company_metrics_from_transactions`
(src/dashboard/app.py): recompute the row for one company from its
transaction group `tx_list`, reading risk factors from the current table
`company_df` (which already holds the updates of companies handled earlier
in the same tick). -/
def update_company_row (company_df : List Obligor) (row : Obligor)
    (tx_list : List Tx) (h : String → ℕ) (cds : Option ℚ) : Obligor :=
  let total_exposure := (tx_list.map (fun t => t.amount)).sum
  let avg_pd := calculate_company_pd_from_transactions row.company tx_list company_df h cds
  let avg_tenor := (tx_list.map (fun t => t.tenor_days)).sum / tx_list.length
  let new_yield := 30.0 + avg_pd * 100
  let new_spread := (pyInt (30 + avg_pd * 200) : ℚ)
  let new_rating : String :=
    if avg_pd < 0.03 then "A-"
    else if avg_pd < 0.05 then "BBB+"
    else if avg_pd < 0.08 then "BBB"
    else if avg_pd < 0.12 then "BBB-"
    else "BB+"
  let notional_change := (tx_list.map (fun t => t.amount)).sum
  let cds_fee_change := (tx_list.map (fun t => t.amount * t.pd)).sum
  { row with
      total_exposure := total_exposure,
      avg_pd := avg_pd,
      terms_tenor := avg_tenor,
      yield := new_yield,
      spread_bps := new_spread,
      credit_rating := new_rating,
      notional_24h_change := notional_change,
      cds_fee_24h_change := cds_fee_change }

/-- `update_company_metrics_from_transactions(company_df, transactions)`
(src/dashboard/app.py): group transactions by company and, for each company
present in the table, rewrite its row in place; companies absent from the
table are skipped. -/
def update_company_metrics_from_transactions (company_df : List Obligor)
    (transactions : List Tx) (h : String → ℕ) (cds : Option ℚ) : List Obligor :=
  (ordered_company_ids transactions).foldl
    (fun acc company_id =>
      if acc.any (fun r => r.company = company_id) then
        replaceFirst (fun r => r.company = company_id)
          (fun row =>
            update_company_row acc row
              (transactions.filter (fun t => t.company_id = company_id)) h cds)
          acc
      else acc)
    company_df

/-- Per-row body of the refresh loop in `simulate_fast_data`
(src/dashboard/app.py): bounded random-walk nudges of PD, yield and spread.
`u_pd`, `u_yield`, `u_spread` are the tick's unit draws. -/
def fast_refresh_row (r : Obligor) (u_pd u_yield u_spread : ℚ) : Obligor :=
  let new_pd := max 0.01 (min 0.15 (r.avg_pd + uniform (-0.003) 0.003 u_pd))
  let new_yield := max 25.0 (min 40.0 (r.yield + uniform (-0.3) 0.3 u_yield))
  let new_spread := max 20 (min 50 (r.spread_bps + uniform (-2) 2 u_spread))
  { r with avg_pd := new_pd, yield := new_yield, spread_bps := new_spread }

/-- The 40%-chance transaction branch of `simulate_fast_data`: add a fresh
transaction amount to one company's exposure and accumulate its 24h deltas. -/
def fast_transaction_bump (r : Obligor) (new_transaction cds_change : ℚ) : Obligor :=
  { r with
      total_exposure := r.total_exposure + new_transaction,
      notional_24h_change := r.notional_24h_change + new_transaction,
      cds_fee_24h_change := r.cds_fee_24h_change + cds_change }

/-- Market stress regime drawn each fast tick by `simulate_ultra_fast_data`
(`random.choice(['normal','normal','normal','stress','crisis'])`). -/
inductive StressLevel where
  | normal
  | stress
  | crisis
deriving DecidableEq

/-- Body of `simulate_ultra_fast_data` (src/dashboard/app.py), the fast-tier
pricing update, for one firing.  `u1`..`u8` are the tick's unit draws, in the
order the source consumes them: price change, arbitrage pressure, volume
effect, CDS change, ZAR change, sovereign change, weighted-PD adjustment
(consumed only under stress/crisis), capital-efficiency change. -/
def simulate_ultra_fast_body (p : ProtocolMetrics) (stress_level : StressLevel)
    (u1 u2 u3 u4 u5 u6 u7 u8 : ℚ) : ProtocolMetrics :=
  let price_volatility : ℚ :=
    match stress_level with
    | .normal => 0.005
    | .stress => 0.015
    | .crisis => 0.025
  let currency_volatility : ℚ :=
    match stress_level with
    | .normal => 0.02
    | .stress => 0.05
    | .crisis => 0.10
  let yield_volatility : ℚ :=
    match stress_level with
    | .normal => 0.1
    | .stress => 0.3
    | .crisis => 0.5
  let cds_monthly := p.cds_premiums_monthly
  let sovereign_monthly := p.sovereign_yield_monthly
  let zar_rate := p.zar_rate
  let base_price : ℚ := 1.00
  let yield_component := (cds_monthly + sovereign_monthly) / 100
  let zar_effect := (zar_rate - 18.5) / 100
  let target_price := base_price + yield_component + zar_effect
  let price_change := uniform (-price_volatility) price_volatility u1
  let arbitrage_pressure := uniform (-0.01) 0.01 u2
  let stress_multiplier : ℚ :=
    match stress_level with
    | .normal => 1.0
    | .stress => 1.5
    | .crisis => 2.0
  let volume_effect := uniform (-0.005) 0.005 u3
  let total_price_change := (price_change + arbitrage_pressure + volume_effect) * stress_multiplier
  let new_price := max 0.95 (min 1.10 (target_price + total_price_change))
  let cds_change := uniform (-0.1) 0.1 u4 * yield_volatility
  let new_cds := max 1.0 (min 3.0 (cds_monthly + cds_change))
  let zar_change := uniform (-currency_volatility) currency_volatility u5
  let new_zar := max 15.0 (min 25.0 (zar_rate + zar_change))
  let sovereign_change := uniform (-0.05) 0.05 u6 * yield_volatility
  let new_sovereign := max 0.5 (min 1.5 (sovereign_monthly + sovereign_change))
  let new_total := new_cds + new_sovereign
  let new_apy := new_total * 12
  let new_weighted_pd : ℚ :=
    match stress_level with
    | .normal => p.weighted_pd
    | .stress => min 0.15 (p.weighted_pd + uniform 0.001 0.005 u7)
    | .crisis => min 0.15 (p.weighted_pd + uniform 0.005 0.015 u7)
  let eff_change := uniform (-0.05) 0.05 u8
  let new_eff := max 5.0 (min 12.0 (p.capital_efficiency + eff_change))
  { p with
      brics_price := new_price,
      cds_premiums_monthly := new_cds,
      zar_rate := new_zar,
      sovereign_yield_monthly := new_sovereign,
      monthly_yield_total := new_total,
      apy_per_brics := new_apy,
      weighted_pd := new_weighted_pd,
      capital_efficiency := new_eff }

/-- Body of `simulate_normal_data` (src/dashboard/app.py), the slow-tier
reconciliation, for one firing: exact exposure-weighted PD over the obligor
table plus bounded nudges of capital efficiency and overcollateralization. -/
def simulate_normal_body (company_df : List Obligor) (p : ProtocolMetrics)
    (u_eff u_oc : ℚ) : ProtocolMetrics :=
  let new_weighted_pd := weighted_pd company_df
  let new_eff := max 5.0 (p.capital_efficiency + uniform (-0.1) 0.1 u_eff)
  let new_oc := max 0.05 (p.overcollateralization + uniform (-0.005) 0.005 u_oc)
  { p with
      weighted_pd := new_weighted_pd,
      capital_efficiency := new_eff,
      overcollateralization := new_oc }

/-- The unclamped price computed by `calculate_realistic_brics_price(real_data)`
(src/dashboard/app.py) before its final bounding line.  Arguments are the five
`real_data` entries the function reads (after their `.get` fallbacks). -/
def brics_raw_price (zar_rate gas_fees south_africa_cds emerging_market_cds
    zar_volatility_adjustment : ℚ) : ℚ :=
  let cds_premium := (south_africa_cds + emerging_market_cds + zar_volatility_adjustment) / 10000
  let zar_effect := (zar_rate - 18.0) / 18.0 * 0.1
  let volatility := 0.02 + (gas_fees / 1000) * 0.01
  let market_stress := (south_africa_cds - 180) / 180 * 0.05
  1.00 + cds_premium + zar_effect + volatility + market_stress

/-- `calculate_realistic_brics_price(real_data)` (src/dashboard/app.py):
`return max(0.98, min(1.05, brics_price))`. -/
def calculate_realistic_brics_price (zar_rate gas_fees south_africa_cds
    emerging_market_cds zar_volatility_adjustment : ℚ) : ℚ :=
  max 0.98 (min 1.05 (brics_raw_price zar_rate gas_fees south_africa_cds
    emerging_market_cds zar_volatility_adjustment))

/-- `df.groupby(key)['total_exposure'].sum()` as used in
`calculate_concentration_risk`: exposure sums per key, keys in sorted order
as pandas produces them. -/
def groupby_exposure_sum (keyOf : Obligor → String) (df : List Obligor) :
    List (String × ℚ) :=
  let keys := ((df.map keyOf).foldl
    (fun acc k => if k ∈ acc then acc else acc ++ [k]) []).insertionSort (· ≤ ·)
  keys.map (fun k =>
    (k, ((df.filter (fun r => keyOf r = k)).map (fun r => r.total_exposure)).sum))

/-- Result dict of `AdvancedRiskAnalytics.calculate_concentration_risk`.
On an empty table Python's `0.0/0.0` gives a float NaN (no exception is
raised); such never-inspected junk values are represented by `ℚ`'s `x/0 = 0`
convention. -/
structure ConcentrationRisk where
  industry_concentration : List (String × ℚ)
  rating_concentration : List (String × ℚ)
  top_5_concentration : ℚ
  hhi : ℚ
  concentration_risk_level : String
deriving DecidableEq

/-- `AdvancedRiskAnalytics.calculate_concentration_risk(company_df)`
(src/engine/advanced_analytics.py). -/
def calculate_concentration_risk (company_df : List Obligor) : ConcentrationRisk :=
  let total_exposure := (company_df.map (fun r => r.total_exposure)).sum
  let industry_concentration := (groupby_exposure_sum (fun r => r.industry) company_df).map
    (fun kv => (kv.1, kv.2 / total_exposure))
  let rating_concentration := (groupby_exposure_sum (fun r => r.credit_rating) company_df).map
    (fun kv => (kv.1, kv.2 / total_exposure))
  let nlargest5 := (company_df.insertionSort
    (fun a b => b.total_exposure ≤ a.total_exposure)).take 5
  let top_5_concentration :=
    ((nlargest5.map (fun r => r.total_exposure)).sum) / total_exposure
  let exposure_shares := company_df.map (fun r => r.total_exposure / total_exposure)
  let hhi := (exposure_shares.map (fun x => x ^ 2)).sum
  { industry_concentration := industry_concentration,
    rating_concentration := rating_concentration,
    top_5_concentration := top_5_concentration,
    hhi := hhi,
    concentration_risk_level :=
      if hhi > 0.25 then "high" else if hhi > 0.15 then "medium" else "low" }

/-- `np.percentile(a, q)` with the default linear interpolation, on rationals. -/
def np_percentile (xs : List ℚ) (q : ℚ) : ℚ :=
  let s := xs.insertionSort (· ≤ ·)
  let n := s.length
  let pos := ((n : ℚ) - 1) * q / 100
  let lo := ⌊pos⌋.toNat
  let a := s.getD lo 0
  let b := s.getD (lo + 1) a
  a + (pos - (lo : ℚ)) * (b - a)

/-- Result dict of `AdvancedRiskAnalytics.calculate_var`. -/
structure VarCalculations where
  var_95 : ℚ
  expected_shortfall : ℚ
  confidence_level : ℚ
  time_horizon : ℕ
  total_exposure : ℚ
  weighted_pd : ℚ
deriving DecidableEq

/-- `AdvancedRiskAnalytics.calculate_var(company_df, confidence_level, time_horizon)`
(src/engine/advanced_analytics.py).  `defaults trial i` models the Bernoulli
draw `np.random.binomial(1, weighted_pd, len(company_df))[i]` of one Monte
Carlo trial.  A zero total exposure makes the source's `weighted_pd` a float
NaN (`0.0/0.0`; a ZeroDivisionError for an integer dtype), and
`np.random.binomial` rejects a NaN — or out-of-range — probability with a
ValueError, so the computation fails instead of producing a result: that
failure is the `none` branch. -/
def calculate_var (company_df : List Obligor) (defaults : ℕ → ℕ → Bool)
    (confidence_level : ℚ) (time_horizon : ℕ) : Option VarCalculations :=
  let total_exposure := (company_df.map (fun r => r.total_exposure)).sum
  if total_exposure = 0 then none
  else
    let wpd := weighted_pd company_df
    if wpd < 0 ∨ 1 < wpd then none
    else
      let num_simulations := 10000
      let portfolio_changes := (List.range num_simulations).map (fun trial =>
        -(((company_df.enum).map
          (fun ir => if defaults trial ir.1 then ir.2.total_exposure else 0)).sum))
      let var_percentile := (1 - confidence_level) * 100
      let var_value := np_percentile portfolio_changes var_percentile
      let tail_losses := portfolio_changes.filter (fun x => x ≤ var_value)
      let expected_shortfall :=
        if tail_losses.isEmpty then var_value
        else tail_losses.sum / (tail_losses.length : ℚ)
      some { var_95 := var_value,
             expected_shortfall := expected_shortfall,
             confidence_level := confidence_level,
             time_horizon := time_horizon,
             total_exposure := total_exposure,
             weighted_pd := wpd }

/-- Parameters of one entry of the `scenarios` dict in
`AdvancedRiskAnalytics.stress_test_scenarios`. -/
structure ScenarioParams where
  pd_multiplier : ℚ
  recovery_rate : ℚ
  affected_industries : Option (List String)
deriving DecidableEq

/-- `scenarios['severe_recession']`. -/
def severe_recession_params : ScenarioParams :=
  { pd_multiplier := 3.0, recovery_rate := 0.3, affected_industries := none }

/-- `scenarios['industry_crisis']`: note the capitalised industry name
`'Automotive'` in `affected_industries`. -/
def industry_crisis_params : ScenarioParams :=
  { pd_multiplier := 2.5, recovery_rate := 0.4,
    affected_industries := some ["Automotive"] }

/-- `scenarios['sovereign_crisis']`. -/
def sovereign_crisis_params : ScenarioParams :=
  { pd_multiplier := 2.0, recovery_rate := 0.5, affected_industries := none }

/-- `scenarios['liquidity_crisis']`. -/
def liquidity_crisis_params : ScenarioParams :=
  { pd_multiplier := 1.5, recovery_rate := 0.25, affected_industries := none }

/-- One pass of `stressed_pds[mask] *= pd_multiplier` for a single affected
industry: multiply the PD of every row whose industry equals `industry`. -/
def apply_industry_stress (company_df : List Obligor) (pds : List ℚ)
    (industry : String) (pd_multiplier : ℚ) : List ℚ :=
  List.zipWith
    (fun r pd => if r.industry = industry then pd * pd_multiplier else pd)
    company_df pds

/-- The `stressed_pds` series computed by `stress_test_scenarios` for one
scenario: a per-industry masked multiply when the scenario lists affected
industries, otherwise a uniform multiply of every obligor's PD. -/
def scenario_stressed_pds (company_df : List Obligor) (ps : ScenarioParams) :
    List ℚ :=
  match ps.affected_industries with
  | some inds =>
    inds.foldl
      (fun pds industry =>
        apply_industry_stress company_df pds industry ps.pd_multiplier)
      (company_df.map (fun r => r.avg_pd))
  | none => (company_df.map (fun r => r.avg_pd)).map (fun pd => pd * ps.pd_multiplier)

/-- Per-scenario result dict of `stress_test_scenarios`. -/
structure StressResult where
  expected_loss : ℚ
  recovery_amount : ℚ
  net_loss : ℚ
  loss_percentage : ℚ
  stressed_pds : List ℚ
deriving DecidableEq

/-- Loop body of `AdvancedRiskAnalytics.stress_test_scenarios`
(src/engine/advanced_analytics.py) for one scenario. -/
def stress_scenario_result (company_df : List Obligor) (ps : ScenarioParams) :
    StressResult :=
  let base_exposure := (company_df.map (fun r => r.total_exposure)).sum
  let pds := scenario_stressed_pds company_df ps
  let expected_loss :=
    (List.zipWith (fun pd r => pd * r.total_exposure) pds company_df).sum
  let recovery_amount := expected_loss * ps.recovery_rate
  let net_loss := expected_loss - recovery_amount
  { expected_loss := expected_loss,
    recovery_amount := recovery_amount,
    net_loss := net_loss,
    loss_percentage := (net_loss / base_exposure) * 100,
    stressed_pds := pds }

/-- The lowercase `industries` list the engine draws obligor industries from,
written twice in src/dashboard/app.py (`simulate_live_transaction_data` and the
company-seeding block of `run_all_simulations`). -/
def generated_industries : List String :=
  ["mining", "manufacturing", "financial", "retail", "agriculture",
   "energy", "technology", "telecommunications", "beverages", "automotive",
   "construction", "healthcare", "education", "logistics", "real_estate"]

/-- One off-diagonal entry computation of
`AdvancedRiskAnalytics.calculate_correlations`: diagonal entries are 1.0,
otherwise a fresh same-industry/same-rating draw capped at 0.95.  `rng` is the
injected unit-draw stream and `k` the index of the next unconsumed draw; the
returned index accounts for the one or two draws this entry consumed. -/
def corr_entry (c1 c2 : Obligor) (i j : ℕ) (rng : ℕ → ℚ) (k : ℕ) : ℚ × ℕ :=
  if i = j then (1.0, k)
  else
    let base_corr :=
      if c1.industry = c2.industry then uniform 0.3 0.6 (rng k)
      else uniform 0.1 0.3 (rng k)
    let vk : ℚ × ℕ :=
      if c1.credit_rating = c2.credit_rating then
        (base_corr + uniform 0.1 0.2 (rng (k + 1)), k + 2)
      else (base_corr, k + 1)
    (min 0.95 vk.1, vk.2)

/-- Inner loop of `calculate_correlations`: the row of entries for `c1`
(at row index `i`) against the enumerated column companies. -/
def corr_row (c1 : Obligor) (i : ℕ) (rng : ℕ → ℚ) :
    List (ℕ × Obligor) → ℕ → List ℚ × ℕ
  | [], k => ([], k)
  | jc :: rest, k =>
    let ek := corr_entry c1 jc.2 i jc.1 rng k
    let rk := corr_row c1 i rng rest ek.2
    (ek.1 :: rk.1, rk.2)

/-- Outer loop of `calculate_correlations` over the enumerated row companies. -/
def corr_rows (rng : ℕ → ℚ) (cols : List (ℕ × Obligor)) :
    List (ℕ × Obligor) → ℕ → List (List ℚ)
  | [], _ => []
  | ic :: rest, k =>
    let rk := corr_row ic.2 ic.1 rng cols k
    rk.1 :: corr_rows rng cols rest rk.2

/-- `AdvancedRiskAnalytics.calculate_correlations(company_df)`
(src/engine/advanced_analytics.py) as the matrix of its entry values, rows and
columns in table order.  Each ordered pair `(i, j)`, `i ≠ j`, consumes fresh
draws from `rng` exactly as the source's nested loop consumes
`random.uniform` calls. -/
def calculate_correlations (company_df : List Obligor) (rng : ℕ → ℚ) :
    List (List ℚ) :=
  corr_rows rng company_df.enum company_df.enum 0

/-- A neutral obligor row used as placeholder default for list indexing in
closed statements. -/
def defaultObligor : Obligor :=
  { company := "", industry := "", credit_rating := "", avg_pd := 0,
    yield := 0, total_exposure := 0, terms_tenor := 0, spread_bps := 0,
    credit_type := "", notional_24h_change := 0, cds_fee_24h_change := 0 }

/-- The three-company scenario table of the spec (exposures 1M/2M/1M, PDs
0.05/0.08/0.06), with the remaining columns as in the engine's test fixture. -/
def scenario_df : List Obligor :=
  [{ company := "Test1", industry := "Tech", credit_rating := "AA",
     avg_pd := 0.05, yield := 25.0, total_exposure := 1000000,
     terms_tenor := 60, spread_bps := 30, credit_type := "Trade Receivables",
     notional_24h_change := 0, cds_fee_24h_change := 0 },
   { company := "Test2", industry := "Manufacturing", credit_rating := "A",
     avg_pd := 0.08, yield := 30.0, total_exposure := 2000000,
     terms_tenor := 60, spread_bps := 30, credit_type := "Trade Receivables",
     notional_24h_change := 0, cds_fee_24h_change := 0 },
   { company := "Test3", industry := "Retail", credit_rating := "AA",
     avg_pd := 0.06, yield := 28.0, total_exposure := 1000000,
     terms_tenor := 60, spread_bps := 30, credit_type := "Trade Receivables",
     notional_24h_change := 0, cds_fee_24h_change := 0 }]

/-- A single-obligor table in the shape the engine generates (lowercase
industry drawn from `generated_industries`), carrying nonzero 24h deltas so
that replacement is distinguishable from accumulation. -/
def single_df : List Obligor :=
  [{ company := "COMP_1", industry := "mining", credit_rating := "BBB",
     avg_pd := 0.06, yield := 31.0, total_exposure := 1000000,
     terms_tenor := 90, spread_bps := 38, credit_type := "Trade Receivables",
     notional_24h_change := 500, cds_fee_24h_change := 7 }]

/-- One high-PD transaction for `COMP_1`. -/
def high_pd_txs : List Tx :=
  [{ company_id := "COMP_1", amount := 100000, pd := 10, tenor_days := 60 }]

/-- A constant stand-in for Python's randomised string hash. -/
def hash0 : String → ℕ := fun _ => 0

/-- A two-company table (same industry, same rating) for exercising the
correlation matrix. -/
def pair_df : List Obligor :=
  [{ company := "Test1", industry := "Tech", credit_rating := "AA",
     avg_pd := 0.05, yield := 25.0, total_exposure := 1000000,
     terms_tenor := 60, spread_bps := 30, credit_type := "Trade Receivables",
     notional_24h_change := 0, cds_fee_24h_change := 0 },
   { company := "Test2", industry := "Tech", credit_rating := "AA",
     avg_pd := 0.08, yield := 30.0, total_exposure := 2000000,
     terms_tenor := 60, spread_bps := 30, credit_type := "Trade Receivables",
     notional_24h_change := 0, cds_fee_24h_change := 0 }]

/-- A concrete unit-draw stream: 0 for the first two draws, 1 afterwards.
The entry `(0,1)` of `calculate_correlations pair_df` consumes draws 0 and 1,
the entry `(1,0)` consumes draws 2 and 3, so the two off-diagonal entries get
the bottom resp. top of their draw ranges. -/
def rng01 : ℕ → ℚ := fun k => if k < 2 then 0 else 1
/-! ## Helper lemmas -/

theorem clamp_lo_hi (lo hi x : ℚ) (h : lo ≤ hi) :
    lo ≤ max lo (min hi x) ∧ max lo (min hi x) ≤ hi :=
  ⟨le_max_left _ _, max_le h (min_le_left _ _)⟩

theorem clamp_hi_lo (lo hi x : ℚ) (h : lo ≤ hi) :
    lo ≤ min hi (max lo x) ∧ min hi (max lo x) ≤ hi :=
  ⟨le_min h (le_max_left _ _), min_le_left _ _⟩

theorem calculate_company_pd_mem (company_id : String) (transactions : List Tx)
    (company_df : List Obligor) (h : String → ℕ) (cds : Option ℚ) :
    0.01 ≤ calculate_company_pd_from_transactions company_id transactions company_df h cds ∧
    calculate_company_pd_from_transactions company_id transactions company_df h cds ≤ 0.25 := by
  unfold calculate_company_pd_from_transactions
  split <;> constructor <;> norm_num
  all_goals try split
  all_goals norm_num

theorem update_company_row_avg_pd (company_df : List Obligor) (row : Obligor)
    (tx_list : List Tx) (h : String → ℕ) (cds : Option ℚ) :
    (update_company_row company_df row tx_list h cds).avg_pd =
      calculate_company_pd_from_transactions row.company tx_list company_df h cds := by
  simp only [update_company_row]

theorem mem_replaceFirst {p : Obligor → Bool} {f : Obligor → Obligor}
    {l : List Obligor} {r' : Obligor} (hm : r' ∈ replaceFirst p f l) :
    r' ∈ l ∨ ∃ r, r ∈ l ∧ r' = f r := by
  induction l with
  | nil => simp [replaceFirst] at hm
  | cons a as ih =>
    simp only [replaceFirst] at hm
    by_cases hp : p a
    · rw [if_pos hp] at hm
      rcases List.mem_cons.mp hm with h1 | h1
      · exact Or.inr ⟨a, List.mem_cons_self a as, h1⟩
      · exact Or.inl (List.mem_cons_of_mem a h1)
    · rw [if_neg hp] at hm
      rcases List.mem_cons.mp hm with h1 | h1
      · exact Or.inl (h1 ▸ List.mem_cons_self a as)
      · rcases ih h1 with h2 | ⟨r, hr, he⟩
        · exact Or.inl (List.mem_cons_of_mem a h2)
        · exact Or.inr ⟨r, List.mem_cons_of_mem a hr, he⟩

theorem update_fold_preserves (transactions : List Tx) (h : String → ℕ)
    (cds : Option ℚ) (ids : List String) :
    ∀ acc : List Obligor,
      (∀ r ∈ acc, 0.01 ≤ r.avg_pd ∧ r.avg_pd ≤ 0.25) →
      ∀ r' ∈ ids.foldl
        (fun acc company_id =>
          if acc.any (fun r => r.company = company_id) then
            replaceFirst (fun r => r.company = company_id)
              (fun row =>
                update_company_row acc row
                  (transactions.filter (fun t => t.company_id = company_id)) h cds)
              acc
          else acc)
        acc,
        0.01 ≤ r'.avg_pd ∧ r'.avg_pd ≤ 0.25 := by
  induction ids with
  | nil => intro acc hacc r' hm; exact hacc r' hm
  | cons i is ih =>
    intro acc hacc r' hm
    rw [List.foldl_cons] at hm
    refine ih _ ?_ r' hm
    intro r'' hm''
    by_cases hany : acc.any (fun r => r.company = i)
    · rw [if_pos hany] at hm''
      rcases mem_replaceFirst hm'' with h1 | ⟨r, _, he⟩
      · exact hacc r'' h1
      · rw [he, update_company_row_avg_pd]
        exact calculate_company_pd_mem _ _ _ _ _
    · rw [if_neg hany] at hm''
      exact hacc r'' hm''

/-! ## Claims -/

/-- Claim C2: after transaction application
(`update_company_metrics_from_transactions`) every obligor's `avg_pd` stays in
[0.01, 0.25] (the PD written for each touched row is clamped there, and
untouched rows keep their in-range value), and after the per-obligor refresh
of `simulate_fast_data` every row's `avg_pd` lies in [0.01, 0.25] (the refresh
clamps it to the tighter [0.01, 0.15]). -/
theorem avg_pd_in_bounds_after_updates :
    (∀ (company_df : List Obligor) (transactions : List Tx) (h : String → ℕ)
      (cds : Option ℚ),
      (∀ r ∈ company_df, 0.01 ≤ r.avg_pd ∧ r.avg_pd ≤ 0.25) →
      ∀ r' ∈ update_company_metrics_from_transactions company_df transactions h cds,
        0.01 ≤ r'.avg_pd ∧ r'.avg_pd ≤ 0.25) ∧
    (∀ (r : Obligor) (u_pd u_yield u_spread : ℚ),
      0.01 ≤ (fast_refresh_row r u_pd u_yield u_spread).avg_pd ∧
      (fast_refresh_row r u_pd u_yield u_spread).avg_pd ≤ 0.25) := by
  constructor
  · intro company_df transactions h cds hdf
    unfold update_company_metrics_from_transactions
    exact update_fold_preserves transactions h cds
      (ordered_company_ids transactions) company_df hdf
  · intro r u_pd u_yield u_spread
    have hb := clamp_lo_hi 0.01 0.15 (r.avg_pd + uniform (-0.003) 0.003 u_pd)
      (by norm_num)
    exact ⟨hb.1, hb.2.trans (by norm_num)⟩

/-- Witness for C2: the invariant theorem applied to the concrete one-company
table `single_df` and the tick `high_pd_txs`, whose hypothesis holds there. -/
theorem avg_pd_in_bounds_after_updates_witness :
    (∀ r ∈ single_df, 0.01 ≤ r.avg_pd ∧ r.avg_pd ≤ 0.25) ∧
    (∀ r' ∈ update_company_metrics_from_transactions single_df high_pd_txs hash0 none,
      0.01 ≤ r'.avg_pd ∧ r'.avg_pd ≤ 0.25) :=
  ⟨by intro r hr; simp only [single_df, List.mem_singleton] at hr; rw [hr]; norm_num,
   avg_pd_in_bounds_after_updates.1 single_df high_pd_txs hash0 none
     (by intro r hr; simp only [single_df, List.mem_singleton] at hr; rw [hr]; norm_num)⟩

/-- Claim C3: after every firing of the fast tier (`simulate_ultra_fast_data`),
`apy_per_brics` equals exactly `monthly_yield_total * 12`, and
`monthly_yield_total` equals exactly the `cds_premiums_monthly` plus the
`sovereign_yield_monthly` written in the same tick. -/
theorem apy_equals_monthly_total_times_twelve
    (p : ProtocolMetrics) (s : StressLevel) (u1 u2 u3 u4 u5 u6 u7 u8 : ℚ) :
    (simulate_ultra_fast_body p s u1 u2 u3 u4 u5 u6 u7 u8).apy_per_brics =
      (simulate_ultra_fast_body p s u1 u2 u3 u4 u5 u6 u7 u8).monthly_yield_total * 12 ∧
    (simulate_ultra_fast_body p s u1 u2 u3 u4 u5 u6 u7 u8).monthly_yield_total =
      (simulate_ultra_fast_body p s u1 u2 u3 u4 u5 u6 u7 u8).cds_premiums_monthly +
      (simulate_ultra_fast_body p s u1 u2 u3 u4 u5 u6 u7 u8).sovereign_yield_monthly := by
  cases s <;> exact ⟨rfl, rfl⟩

/-- Claim C9: running the slow-tier reconciliation (`simulate_normal_data`)
twice in succession over an unchanged obligor table yields the same
`weighted_pd` as running it once. -/
theorem slow_reconciliation_idempotent_weighted_pd
    (company_df : List Obligor) (p : ProtocolMetrics) (u1 u2 u3 u4 : ℚ) :
    (simulate_normal_body company_df
        (simulate_normal_body company_df p u1 u2) u3 u4).weighted_pd =
      (simulate_normal_body company_df p u1 u2).weighted_pd := rfl

theorem zipWith_map_self (f : Obligor → ℚ → ℚ) (g : Obligor → ℚ) :
    ∀ df : List Obligor, (∀ r ∈ df, f r (g r) = g r) →
      List.zipWith f df (df.map g) = df.map g
  | [], _ => rfl
  | a :: l, h => by
    simp only [List.map_cons, List.zipWith_cons_cons]
    rw [h a (List.mem_cons_self a l),
      zipWith_map_self f g l (fun r hr => h r (List.mem_cons_of_mem a hr))]

theorem zipWith_map_left (g : Obligor → ℚ) (f : ℚ → Obligor → ℚ) :
    ∀ df : List Obligor, List.zipWith f (df.map g) df = df.map (fun r => f (g r) r)
  | [] => rfl
  | a :: l => by
    simp only [List.map_cons, List.zipWith_cons_cons, zipWith_map_left g f l]

/-- Claim C10: when every obligor's industry comes from the engine's own
lowercase industry list, the `industry_crisis` scenario's target `'Automotive'`
matches no row, so the stressed PDs equal the unstressed `avg_pd` column and
the scenario's expected loss is the unstressed `Σ avg_pd × total_exposure`. -/
theorem industry_crisis_is_noop_on_generated_industries
    (company_df : List Obligor)
    (hind : ∀ r ∈ company_df, r.industry ∈ generated_industries) :
    scenario_stressed_pds company_df industry_crisis_params
        = company_df.map (fun r => r.avg_pd) ∧
    (stress_scenario_result company_df industry_crisis_params).expected_loss
        = (company_df.map (fun r => r.avg_pd * r.total_exposure)).sum := by
  have hgen : ∀ s ∈ generated_industries, s ≠ "Automotive" := by decide
  have hnot : ∀ r ∈ company_df, r.industry ≠ "Automotive" :=
    fun r hr => hgen r.industry (hind r hr)
  have hstressed : scenario_stressed_pds company_df industry_crisis_params
      = company_df.map (fun r => r.avg_pd) := by
    show apply_industry_stress company_df (company_df.map fun r => r.avg_pd)
      "Automotive" industry_crisis_params.pd_multiplier
        = company_df.map (fun r => r.avg_pd)
    exact zipWith_map_self _ _ company_df (fun r hr => if_neg (hnot r hr))
  refine ⟨hstressed, ?_⟩
  show (List.zipWith (fun pd r => pd * r.total_exposure)
      (scenario_stressed_pds company_df industry_crisis_params) company_df).sum
    = (company_df.map (fun r => r.avg_pd * r.total_exposure)).sum
  rw [hstressed, zipWith_map_left]

/-- Witness for C10: the theorem applied to the concrete generated-shape table
`single_df`, whose only industry is the lowercase `"mining"`. -/
theorem industry_crisis_is_noop_witness :
    (∀ r ∈ single_df, r.industry ∈ generated_industries) ∧
    (scenario_stressed_pds single_df industry_crisis_params
        = single_df.map (fun r => r.avg_pd) ∧
     (stress_scenario_result single_df industry_crisis_params).expected_loss
        = (single_df.map (fun r => r.avg_pd * r.total_exposure)).sum) :=
  ⟨by intro r hr; simp only [single_df, List.mem_singleton] at hr; rw [hr]; decide,
   industry_crisis_is_noop_on_generated_industries single_df
     (by intro r hr; simp only [single_df, List.mem_singleton] at hr; rw [hr]; decide)⟩

/-- Counterexample to claim C5: the engine's exposure-weighted mean PD on the
spec's three-company scenario is 27/400 = 0.0675, not the claimed 0.0625. -/
theorem scenario_weighted_pd_not_0625 :
    weighted_pd scenario_df = 27/400 ∧ (27/400 : ℚ) ≠ 0.0625 :=
  ⟨by norm_num [weighted_pd, scenario_df], by norm_num⟩

/-- Claim C5 amended: on the obligor set with exposures {1M, 2M, 1M} and PDs
{0.05, 0.08, 0.06}, the engine's exposure-weighted mean PD — also as written
into `weighted_pd` by the slow-tier reconciliation — equals 0.0675. -/
theorem scenario_weighted_pd_value (p : ProtocolMetrics) (u1 u2 : ℚ) :
    weighted_pd scenario_df = 0.0675 ∧
    (simulate_normal_body scenario_df p u1 u2).weighted_pd = 0.0675 := by
  have h : weighted_pd scenario_df = 0.0675 := by norm_num [weighted_pd, scenario_df]
  exact ⟨h, h⟩

/-- Counterexample to claim C6: on the default `real_data` inputs the raw
recomputed price 38377/36000 ≈ 1.066 lies inside the fast-tier band
[0.95, 1.10] (the fast clamp leaves it unchanged), yet
`calculate_realistic_brics_price` cuts it to 1.05 — its bounds [0.98, 1.05]
are narrower than the fast tier's, not wider. -/
theorem brics_recompute_bounds_not_wider :
    brics_raw_price 18.5 25 180 250 0 = 38377/36000 ∧
    max 0.95 (min 1.10 (38377/36000 : ℚ)) = 38377/36000 ∧
    calculate_realistic_brics_price 18.5 25 180 250 0 = 1.05 ∧
    (1.05 : ℚ) < 38377/36000 := by
  refine ⟨by norm_num [brics_raw_price], by norm_num, ?_, by norm_num⟩
  norm_num [calculate_realistic_brics_price, brics_raw_price]

/-- Claim C6 amended: `brics_price` stays in [0.95, 1.10] after every
fast-tier update, while the full recompute (`calculate_realistic_brics_price`
invoked from `run_all_simulations`) applies the narrower bounds [0.98, 1.05],
strictly contained in the fast-tier band. -/
theorem brics_price_bounds :
    (∀ (p : ProtocolMetrics) (s : StressLevel) (u1 u2 u3 u4 u5 u6 u7 u8 : ℚ),
      0.95 ≤ (simulate_ultra_fast_body p s u1 u2 u3 u4 u5 u6 u7 u8).brics_price ∧
      (simulate_ultra_fast_body p s u1 u2 u3 u4 u5 u6 u7 u8).brics_price ≤ 1.10) ∧
    (∀ zar_rate gas_fees south_africa_cds emerging_market_cds
        zar_volatility_adjustment : ℚ,
      0.98 ≤ calculate_realistic_brics_price zar_rate gas_fees south_africa_cds
          emerging_market_cds zar_volatility_adjustment ∧
      calculate_realistic_brics_price zar_rate gas_fees south_africa_cds
          emerging_market_cds zar_volatility_adjustment ≤ 1.05) ∧
    ((0.95 : ℚ) < 0.98 ∧ (1.05 : ℚ) < 1.10) := by
  refine ⟨?_, ?_, by norm_num⟩
  · intro p s u1 u2 u3 u4 u5 u6 u7 u8
    cases s <;> exact clamp_lo_hi 0.95 1.10 _ (by norm_num)
  · intro zar_rate gas_fees south_africa_cds emerging_market_cds zar_volatility_adjustment
    exact clamp_lo_hi 0.98 1.05 _ (by norm_num)

/-- Claim C7 amended: for every obligor touched in a tick the transaction
application sets `yield` to `30.0 + avg_pd × 100` with no clamp; since the
written `avg_pd` lies in [0.01, 0.25], the resulting yield lies in [31, 55]
and so can exceed 40. -/
theorem yield_formula_unclamped (company_df : List Obligor) (row : Obligor)
    (tx_list : List Tx) (h : String → ℕ) (cds : Option ℚ) :
    (update_company_row company_df row tx_list h cds).yield
        = 30.0 + (update_company_row company_df row tx_list h cds).avg_pd * 100 ∧
    31 ≤ (update_company_row company_df row tx_list h cds).yield ∧
    (update_company_row company_df row tx_list h cds).yield ≤ 55 := by
  have hpd := calculate_company_pd_mem row.company tx_list company_df h cds
  have hy : (update_company_row company_df row tx_list h cds).yield
      = 30.0 + calculate_company_pd_from_transactions row.company tx_list company_df h cds * 100 := by
    simp only [update_company_row]
  refine ⟨by rw [hy, update_company_row_avg_pd], ?_, ?_⟩ <;> rw [hy]
  · have := hpd.1; linarith
  · have := hpd.2; linarith

/-- Claim C8 amended: for every obligor touched in a tick,
`notional_24h_change` and `cds_fee_24h_change` are overwritten with this
tick's sums (Σ amount, Σ amount × pd) — the previous values are replaced,
not accumulated. -/
theorem change_fields_replaced (company_df : List Obligor) (row : Obligor)
    (tx_list : List Tx) (h : String → ℕ) (cds : Option ℚ) :
    (update_company_row company_df row tx_list h cds).notional_24h_change
        = (tx_list.map (fun t => t.amount)).sum ∧
    (update_company_row company_df row tx_list h cds).cds_fee_24h_change
        = (tx_list.map (fun t => t.amount * t.pd)).sum := by
  constructor <;> simp only [update_company_row]

set_option maxHeartbeats 4000000 in
theorem single_df_update_eval :
    update_company_metrics_from_transactions single_df high_pd_txs hash0 none
      = [{ company := "COMP_1", industry := "mining", credit_rating := "BB+",
           avg_pd := 0.25, yield := 55, total_exposure := 100000,
           terms_tenor := 60, spread_bps := 80, credit_type := "Trade Receivables",
           notional_24h_change := 100000, cds_fee_24h_change := 1000000 }] := by
  norm_num [update_company_metrics_from_transactions, ordered_company_ids,
    replaceFirst, update_company_row, calculate_company_pd_from_transactions,
    calculate_company_specific_risk, industry_risk_factors, regions,
    geographic_risk_factors, business_model_risk_factors,
    financial_health_factors, single_df, high_pd_txs, hash0, pyInt]

/-- Counterexample to claim C7: applying the tick `high_pd_txs` (one
transaction whose PD multiplies up beyond the 0.25 cap) to `single_df` writes
`avg_pd = 0.25` and `yield = 30 + 0.25×100 = 55 > 40`: the claimed [25, 40]
clamp does not exist on this path. -/
theorem yield_exceeds_forty :
    ((update_company_metrics_from_transactions single_df high_pd_txs hash0 none).getD 0
        defaultObligor).yield = 55 ∧
    ¬ ((update_company_metrics_from_transactions single_df high_pd_txs hash0 none).getD 0
        defaultObligor).yield ≤ 40 := by
  rw [single_df_update_eval]
  norm_num [List.getD]

/-- Counterexample to claim C8: `single_df` starts the tick with
`notional_24h_change = 500` and `cds_fee_24h_change = 7`; after the tick the
fields hold exactly this tick's sums (100000 and 1000000), not the old value
plus the tick's contribution (100500 and 1000007): the fields are replaced,
not accumulated. -/
theorem change_fields_not_accumulated :
    ((update_company_metrics_from_transactions single_df high_pd_txs hash0 none).getD 0
        defaultObligor).notional_24h_change = 100000 ∧
    ((update_company_metrics_from_transactions single_df high_pd_txs hash0 none).getD 0
        defaultObligor).cds_fee_24h_change = 1000000 ∧
    (single_df.getD 0 defaultObligor).notional_24h_change = 500 ∧
    (single_df.getD 0 defaultObligor).cds_fee_24h_change = 7 ∧
    (single_df.getD 0 defaultObligor).notional_24h_change
        + (high_pd_txs.map (fun t => t.amount)).sum ≠ 100000 ∧
    (single_df.getD 0 defaultObligor).cds_fee_24h_change
        + (high_pd_txs.map (fun t => t.amount * t.pd)).sum ≠ 1000000 := by
  rw [single_df_update_eval]
  norm_num [List.getD, single_df, high_pd_txs]

/-- Claim C1, evaluating the code at the failing input: on the empty obligor
table `calculate_concentration_risk` does return an HHI of 0 (and the "low"
risk band) without raising, but `calculate_var` fails — its weighted PD is
`0/0` and the Monte Carlo sampler rejects it — instead of returning a
zero-loss result. -/
theorem empty_table_analytics_eval :
    calculate_var [] (fun _ _ => false) 0.95 30 = none ∧
    (calculate_concentration_risk []).hhi = 0 ∧
    (calculate_concentration_risk []).concentration_risk_level = "low" := by
  refine ⟨by simp [calculate_var], ?_, ?_⟩ <;>
    norm_num [calculate_concentration_risk, groupby_exposure_sum]

/-- Claim C4, evaluating the code at the failing input: on the two-company
table `pair_df` (same industry and rating) with the draw stream `rng01`, the
correlation matrix comes out as `[[1, 0.4], [0.8, 1]]` — entry (0,1) differs
from entry (1,0), because the source draws fresh randoms for every ordered
pair, so the matrix is not symmetric.  (The diagonal is 1.0 as claimed.) -/
theorem correlation_matrix_asymmetric :
    calculate_correlations pair_df rng01 = [[1, 2/5], [4/5, 1]] ∧
    ((2 : ℚ)/5 ≠ 4/5) :=
  ⟨by norm_num [calculate_correlations, pair_df, rng01, corr_rows, corr_row,
      corr_entry, uniform, List.enum],
   by norm_num⟩
